import Mathlib

/-!
Verification development for the transit schedule viewer client
(`gtfsscheduleviewer/files/index.js` and the LabeledMarker overlay class).

The JavaScript sources are shallowly embedded as executable Lean functions.
Browser and mapping-library objects (the map, DOM elements, XMLHttpRequest)
are external collaborators of the code under study; their state is modelled
by explicit record fields, and calls into them that return nothing and keep
no state relevant to the client (such as `map.fitBounds`) are noted in
comments and elided.  JavaScript runtime errors (ReferenceError, TypeError)
are modelled with `Except`.
-/

set_option maxHeartbeats 1000000

deriving instance DecidableEq for Except

/-- JavaScript runtime errors raised by the embedded code.  The error value
does not carry the partially mutated DOM state; where a source function
mutates state before throwing, a comment at the throw site records it. -/
inductive JsError where
  | referenceError
  | typeError
deriving DecidableEq

/-- A JavaScript primitive value as far as this client manipulates them:
a (non-negative integral) number or a string. -/
inductive JsValue where
  | num (n : Nat)
  | str (s : String)
deriving DecidableEq

/-- String coercion of a JavaScript value (as performed when the value is
concatenated into a URL or assigned to a DOM text field). -/
def jsValToString : JsValue → String
  | .num n => toString n
  | .str s => s

/-- The JavaScript `+` operator on primitive values: numeric addition when
both operands are numbers, string concatenation otherwise. -/
def jsPlus : JsValue → JsValue → JsValue
  | .num a, .num b => .num (a + b)
  | a, b => .str (jsValToString a ++ jsValToString b)

/-- Truthiness of an optional string (`undefined` and the empty string are
falsy, every other string is truthy). -/
def jsTruthyStr (t : Option String) : Bool := t.getD "" != ""

/-- `[0-9]` character class. -/
def isDigitCh (c : Char) : Bool := '0' ≤ c && c ≤ '9'

/-- `[012]` character class (first digit of the hours field). -/
def isD012 (c : Char) : Bool := c = '0' || c = '1' || c = '2'

/-- `[012345]` character class (first digit of the minutes/seconds fields). -/
def isD05 (c : Char) : Bool := '0' ≤ c && c ≤ '5'

/-- `parseInt(s, 10)` on a capture that consists of decimal digits. -/
def parseIntDec (ds : List Char) : Nat :=
  ds.foldl (fun a c => a * 10 + (c.toNat - 48)) 0

/-- The alternatives, in the backtracking order of the JavaScript regex
engine, for a sub-pattern `[X]?\d` starting at index `i`: first the greedy
two-character reading (optional class character taken), then the
one-character reading.  Each alternative is returned with the captured
characters and the index following the match. -/
def optClassDigit (cls : Char → Bool) (cs : List Char) (i : Nat) :
    List (List Char × Nat) :=
  (match cs.get? i, cs.get? (i + 1) with
   | some a, some b => if cls a && isDigitCh b then [([a, b], i + 2)] else []
   | _, _ => []) ++
  (match cs.get? i with
   | some a => if isDigitCh a then [([a], i + 1)] else []
   | none => [])

/-- A successful match of `/([012]?\d):([012345]?\d)(:([012345]?\d))?/`:
the captures `m[1]`, `m[2]` and the optional `m[4]`. -/
structure TimeMatch where
  g1 : List Char
  g2 : List Char
  g4 : Option (List Char)
deriving DecidableEq

/-- Attempt to match `/([012]?\d):([012345]?\d)(:([012345]?\d))?/` at
index `i`.  Group 3 is optional and nothing follows it, so the first
alternatives of groups 1 and 2 that let the mandatory `:` match win, and
group 3 is then matched greedily at the resulting position. -/
def timeMatchAt (cs : List Char) (i : Nat) : Option TimeMatch :=
  (optClassDigit isD012 cs i).findSome? (fun g1p =>
    if cs.get? g1p.2 = some ':' then
      (optClassDigit isD05 cs (g1p.2 + 1)).findSome? (fun g2p =>
        let g4 : Option (List Char) :=
          if cs.get? g2p.2 = some ':' then
            ((optClassDigit isD05 cs (g2p.2 + 1)).head?).map Prod.fst
          else none
        some { g1 := g1p.1, g2 := g2p.1, g4 := g4 })
    else none)

/-- `text.match(...)` for the time regex: leftmost match wins. -/
def timeSearch (cs : List Char) : Option TimeMatch :=
  (List.range (cs.length + 1)).findSome? (timeMatchAt cs)

/-- `parseTimeInput`, as a function of the text of the `timeInput` element.
On a match, `seconds` accumulates `m[1]*3600 + m[2]*60`; if the optional
seconds group matched, the source then executes `second += parseInt(m[4], 10)`
where `second` (without the final `s`) is not declared anywhere, so reading
it raises a ReferenceError and the function never returns.  Without a
seconds group the accumulated number is returned; with no match at all the
empty string is returned. -/
def parseTimeInputText (text : String) : Except JsError JsValue :=
  match timeSearch text.data with
  | some m =>
      let seconds := parseIntDec m.g1 * 3600 + parseIntDec m.g2 * 60
      match m.g4 with
      | some _ => .error .referenceError
      | none => .ok (.num seconds)
  | none => .ok (.str "")

/-- `leadingZero` from the source: pad a number below 10 with one zero. -/
def leadingZero (digit : Nat) : String :=
  if digit < 10 then "0" ++ toString digit else toString digit

/-- `formatTime(secSinceMidnight)`; `twelveHourTime` is the configuration
global of the same name. -/
def formatTime (twelveHourTime : Bool) (secSinceMidnight : Nat) : String :=
  let hours := secSinceMidnight / 3600
  let suffix := ""
  let hs : Nat × String :=
    if twelveHourTime then
      let suffix := if hours ≥ 12 then "p" else "a"
      let suffix := suffix ++ (if hours ≥ 24 then " next day" else "")
      let hours := hours % 12
      let hours := if hours = 0 then 12 else hours
      (hours, suffix)
    else (hours, suffix)
  let minutes := (secSinceMidnight / 60) % 60
  let seconds := secSinceMidnight % 60
  if seconds = 0 then
    toString hs.1 ++ ":" ++ leadingZero minutes ++ hs.2
  else
    toString hs.1 ++ ":" ++ leadingZero minutes ++ ":" ++ leadingZero seconds ++ hs.2

/-- `maybeAddLeadingZero(number)`: for an input over 10 the source returns
the number itself (a number, not a string); otherwise it returns the string
`'0' + number`.  For the input 10 this yields the three-character string
`"010"`. -/
def maybeAddLeadingZero (number : Nat) : JsValue :=
  if number > 10 then .num number else .str ("0" ++ toString number)

/-- The string assigned to `startDateInput.value` by `setStartDate(y,m,d)`:
`y + maybeAddLeadingZero(m) + maybeAddLeadingZero(d)` under JavaScript `+`
semantics, so when `maybeAddLeadingZero(m)` is a number (month over 10) the
year and month are added numerically before any concatenation happens. -/
def setStartDateValue (y m d : Nat) : String :=
  jsValToString (jsPlus (jsPlus (.num y) (maybeAddLeadingZero m)) (maybeAddLeadingZero d))

/-- Hexadecimal digit character (uppercase, as produced by the browser). -/
def hexDigitCh (n : Nat) : Char :=
  if n < 10 then Char.ofNat (48 + n) else Char.ofNat (55 + n)

/-- Value of a hexadecimal digit character, `none` if not a hex digit. -/
def hexVal (c : Char) : Option Nat :=
  if '0' ≤ c && c ≤ '9' then some (c.toNat - 48)
  else if 'A' ≤ c && c ≤ 'F' then some (c.toNat - 55)
  else if 'a' ≤ c && c ≤ 'f' then some (c.toNat - 87)
  else none

/-- Characters `encodeURIComponent` leaves unescaped:
letters, digits and `- _ . ! ~ * ' ( )`. -/
def isUriUnreserved (c : Char) : Bool :=
  ('A' ≤ c && c ≤ 'Z') || ('a' ≤ c && c ≤ 'z') || ('0' ≤ c && c ≤ '9') ||
  c = '-' || c = '_' || c = '.' || c = '!' || c = '~' || c = '*' ||
  c = Char.ofNat 39 || c = '(' || c = ')'

/-- UTF-8 bytes of a code point. -/
def utf8Bytes (n : Nat) : List Nat :=
  if n < 128 then [n]
  else if n < 2048 then [192 + n / 64, 128 + n % 64]
  else if n < 65536 then [224 + n / 4096, 128 + n / 64 % 64, 128 + n % 64]
  else [240 + n / 262144, 128 + n / 4096 % 64, 128 + n / 64 % 64, 128 + n % 64]

/-- Model of the JavaScript builtin `encodeURIComponent` (an external
collaborator, not part of this repository): unreserved characters pass
through, every other character is percent-encoded byte by byte. -/
def encodeURIComponent (s : String) : String :=
  String.mk (s.data.foldr
    (fun c acc =>
      if isUriUnreserved c then c :: acc
      else (utf8Bytes c.toNat).foldr
        (fun b acc2 => '%' :: hexDigitCh (b / 16) :: hexDigitCh (b % 16) :: acc2) acc)
    [])

/-- Model of the JavaScript builtin `unescape` (an external collaborator,
not part of this repository): decodes `%uXXXX` and `%XX` escape sequences,
leaving malformed sequences untouched. -/
def unescapeChars : List Char → List Char
  | '%' :: 'u' :: a :: b :: c :: d :: rest =>
      match hexVal a, hexVal b, hexVal c, hexVal d with
      | some va, some vb, some vc, some vd =>
          Char.ofNat (va * 4096 + vb * 256 + vc * 16 + vd) :: unescapeChars rest
      | _, _, _, _ => '%' :: unescapeChars ('u' :: a :: b :: c :: d :: rest)
  | '%' :: a :: b :: rest =>
      match hexVal a, hexVal b with
      | some va, some vb => Char.ofNat (va * 16 + vb) :: unescapeChars rest
      | _, _ => '%' :: unescapeChars (a :: b :: rest)
  | c :: rest => c :: unescapeChars rest
  | [] => []

/-- `unescape(data)` on a string. -/
def unescape (s : String) : String := String.mk (unescapeChars s.data)

/-- The path component of a URL: everything before the first `?`. -/
def urlPath (u : String) : String := String.mk (u.data.takeWhile (· ≠ '?'))

/-- One HTTP request issued through `downloadUrl`, identified by the call
site that builds its URL; the constructors carry the data the call site
interpolates into the URL.  This type enumerates every `downloadUrl` call
site of the client. -/
inductive FetchCall where
  /-- `fetchStopsInBounds` (coordinates carried as opaque integers; no
  arithmetic is done on them). -/
  | boundBoxStops (n e s w : Int)
  /-- `stopTextSearchSubmit` (the raw, unescaped search text). -/
  | stopSearch (q : String)
  /-- `fetchStopInfoWindow`; `time` and `date` are the already-computed
  values of `parseTimeInput()` and `parseDateInput()`. -/
  | stopTrips (stopId : String) (time date : String)
  /-- `fetchRoutes`. -/
  | routes
  /-- `fetchPatterns`. -/
  | routePatterns (routeId : String) (time date : String)
  /-- `selectTrip`. -/
  | tripStopTimes (tripId : String)
  /-- `fetchTripPolyLine`. -/
  | tripShape (tripId : String)
  /-- `fetchTripRows`. -/
  | tripRows (tripId : String)
  /-- `changeStopLocation`. -/
  | setStopLocation (stopId : String) (lat lng : Int)
  /-- `saveData`. -/
  | saveData
deriving DecidableEq

/-- The URL each call site passes to `downloadUrl`, concatenated exactly as
in the source. -/
def requestUrl : FetchCall → String
  | .boundBoxStops n e s w =>
      "/json/boundboxstops?n=" ++ toString n ++ "&e=" ++ toString e ++
      "&s=" ++ toString s ++ "&w=" ++ toString w ++ "&limit=50"
  | .stopSearch q => "/json/stopsearch?q=" ++ q
  | .stopTrips stopId time date =>
      "/json/stoptrips?stop=" ++ encodeURIComponent stopId ++
      "&time=" ++ time ++ "&date=" ++ date
  | .routes => "/json/routes"
  | .routePatterns routeId time date =>
      "/json/routepatterns?route=" ++ encodeURIComponent routeId ++
      "&time=" ++ time ++ "&date=" ++ date
  | .tripStopTimes tripId => "/json/tripstoptimes?trip=" ++ encodeURIComponent tripId
  | .tripShape tripId => "/json/tripshape?trip=" ++ encodeURIComponent tripId
  | .tripRows tripId => "/json/triprows?trip=" ++ encodeURIComponent tripId
  | .setStopLocation stopId lat lng =>
      "/json/setstoplocation?id=" ++ encodeURIComponent stopId ++
      "&lat=" ++ encodeURIComponent (toString lat) ++
      "&lng=" ++ encodeURIComponent (toString lng)
  | .saveData => "/json/savedata"

/-- The primitive operations `downloadUrl` performs on its XMLHttpRequest
object (and on the console), in order. -/
inductive XhrAction where
  | consoleLog (msg : String)
  | openRequest (method url : String) (async : Bool)
  | setOnload
  | setOnerror
  | send
  | abortReq
  | setTimeoutMs (ms : Nat)
  | consoleError (msg : String)
deriving DecidableEq

/-- `downloadUrl(url, callback)`: optionally log, then open an asynchronous
GET, install the onload and onerror handlers, and send.  No timeout is
configured and no abort is ever performed. -/
def downloadUrl (logFlag : Bool) (url : String) : List XhrAction :=
  (if logFlag then [XhrAction.consoleLog url] else []) ++
  [XhrAction.openRequest "GET" url true, XhrAction.setOnload,
   XhrAction.setOnerror, XhrAction.send]

/-- The onload handler: when `readyState` is 4 it hands `responseText` and
`status` to the callback (returned here as the callback's arguments);
otherwise it does nothing. -/
def xhrOnLoad (readyState : Nat) (responseText : String) (status : Nat) :
    Option (String × Nat) :=
  if readyState = 4 then some (responseText, status) else none

/-- The onerror handler, `console.error("", xhr.status)`: it only writes to
the console; in particular it issues no new request. -/
def xhrOnError (status : Nat) : List XhrAction :=
  [XhrAction.consoleError ("" ++ toString status)]

/-- The three stop icons set up by `initIcons`. -/
inductive Icon where
  | selected
  | backgroundStation
  | background
deriving DecidableEq

/-- A map marker as this client observes it: the stop data attached by
`addStopMarker`, whether it is currently on the map (`setMap(null)` turns
this off), whether it was created draggable, its icon, and the label text
when it is a MarkerWithLabel (`none` for a plain Marker). -/
structure Marker where
  stopId : String
  stopName : String
  position : Int × Int
  displayed : Bool
  draggable : Bool
  icon : Icon
  label : Option String
deriving DecidableEq

/-- A polyline overlay created by `displayPolyLine`. -/
structure Polyline where
  path : List (Int × Int)
  color : String
  strokeWeight : Nat
  displayed : Bool
deriving DecidableEq

/-- A row of stops.txt as the JSON endpoints deliver it:
`[stop_id, stop_name, stop_lat, stop_lon, location_type]` (positional;
coordinates carried as opaque integers). -/
structure StopRow where
  stopId : String
  stopName : String
  stopLat : Int
  stopLon : Int
  locationType : Int
deriving DecidableEq

/-- A row of the `/json/routes` response: `[route_id, short_name, name]`. -/
structure RouteRow where
  routeId : String
  shortName : String
  routeName : String
deriving DecidableEq

/-- The DOM entry `callbackDisplayRoutes` builds for one route: the
`route_<id>` div with its short-name span, text and className
(`chosen` = `routeChoiceSelected`). -/
structure RouteView where
  routeId : String
  shortName : String
  name : String
  chosen : Bool
deriving DecidableEq

/-- The `trip_<id>` span inside a pattern section: its formatted time text
and className (`chosen` = `tripChoiceSelected`). -/
structure TripView where
  timeText : String
  tripId : String
  chosen : Bool
deriving DecidableEq

/-- One `patternSection` div built by `callbackDisplayPatterns`. -/
structure PatternView where
  unusual : Bool
  nameText : String
  countText : String
  earlyDots : String
  trips : List TripView
  lateDots : String
deriving DecidableEq

/-- One entry of `/json/routepatterns`:
`[patName, patId, len(early trips), trips, len(later trips),
has_non_zero_trip_type]`, a trip being `[time, tripId]`. -/
structure TripEntry where
  time : Nat
  tripId : String
deriving DecidableEq

structure PatternRow where
  name : String
  patId : String
  earlier : Nat
  trips : List TripEntry
  later : Nat
  unusual : String
deriving DecidableEq

/-- One entry of the `/json/stoptrips` response:
`[time, [tripId, tripName, serviceId], timepoint]`. -/
structure TimeTrip where
  time : Nat
  tripId : String
  tripName : String
  serviceId : String
  timepoint : Bool
deriving DecidableEq

/-- The `/json/tripshape` response: a point list and an optional color. -/
structure PolyData where
  points : List (Int × Int)
  color : Option String
deriving DecidableEq

/-- A JavaScript object keyed by stop id, as an insertion-ordered
association list (property update keeps the position, a new property is
appended, `delete` removes the entry). -/
abbrev StrMap := List (String × Marker)

/-- `m[k]` (property read; `none` is `undefined`). -/
def getKey : StrMap → String → Option Marker
  | [], _ => none
  | (k, v) :: rest, key => if k = key then some v else getKey rest key

/-- `m[k] = v`: update in place if the key exists, else append. -/
def setKey : StrMap → String → Marker → StrMap
  | [], key, v => [(key, v)]
  | (k, w) :: rest, key, v =>
      if k = key then (key, v) :: rest else (k, w) :: setKey rest key v

/-- `delete m[k]`. -/
def delKey : StrMap → String → StrMap
  | [], _ => []
  | (k, w) :: rest, key => if k = key then rest else (k, w) :: delKey rest key

/-- The keys of the object, in insertion order. -/
def keysOf (m : StrMap) : List String := m.map Prod.fst

/-- A key-preserving in-place update of the stored marker objects
(modelling mutation of markers aliased through the object). -/
def mapVals (f : String → Marker → Marker) (m : StrMap) : StrMap :=
  m.map (fun q => (q.1, f q.1 q.2))

/-- `marker.setMap(null)`: the marker is removed from the map display. -/
def markerSetMapNull (m : Marker) : Marker := { m with displayed := false }

/-- The configuration and browser environment the client reads but never
writes: the `forbid_editing` and `twelveHourTime` globals, the window and
layout metrics used by `sizeRouteList`, and the user-agent facts used by
`svgTag` (`svgControlInstalled` models the external helper
`isSVGControlInstalled`, which is not among the sources). -/
structure Env where
  forbid_editing : Bool := false
  twelveHourTime : Bool := false
  windowHeight : Int := 0
  topbarOffsetHeight : Int := 0
  bottombarOffsetHeight : Int := 0
  bottombarMarginTop : Int := 0
  userAgentIsMsie : Bool := false
  svgControlInstalled : Bool := false
deriving DecidableEq

def defaultEnv : Env := {}

/-- The mutable state of the client: the script's globals
(`stopMarkersSelected`, `stopMarkersBackground`, `existingPolylines`,
`boundsOfPolyLine`, `selectedRoute`) and the DOM elements the script reads
or writes.  `orphans` and `polyOrphans` are ghost fields recording marker
and polyline objects that are no longer referenced from the globals, so
that display lifecycles can be stated about every object ever created. -/
structure St where
  stopMarkersSelected : StrMap := []
  stopMarkersBackground : StrMap := []
  existingPolylines : List Polyline := []
  boundsOfPolyLine : Option (List (Int × Int)) := none
  orphans : List Marker := []
  polyOrphans : List Polyline := []
  selectedRoute : Option String := none
  editStatus : String := ""
  editVisible : Bool := false
  infoWindowContent : Option String := none
  routeList : List RouteView := []
  tripInfo : Option (List PatternView) := none
  bottombarDisplayed : Bool := false
  bottombarHeightStyle : String := ""
  bottombarHtml : String := ""
  contentHeight : Int := 0
  timeInput : String := ""
  startDateInput : String := ""
  stopTextSearchInput : String := ""
  tripTextSearchInput : String := ""
deriving DecidableEq

/-- The state when the page has just loaded: empty marker objects, no
polylines, no selection. -/
def initSt : St := {}

/-- `clearMap()`: `setMap(null)` on every selected marker, background
marker and polyline, then reset the three containers and the bounding box.
The now-unreferenced objects move to the ghost orphan lists, undisplayed. -/
def clearMap (s : St) : St :=
  { s with
    boundsOfPolyLine := none
    stopMarkersSelected := []
    stopMarkersBackground := []
    existingPolylines := []
    orphans :=
      s.stopMarkersSelected.map (fun p => markerSetMapNull p.2) ++
      s.stopMarkersBackground.map (fun p => markerSetMapNull p.2) ++
      s.orphans
    polyOrphans :=
      s.existingPolylines.map (fun q => { q with displayed := false }) ++
      s.polyOrphans }

/-- `expandBoundingBox(latLng)`: start a fresh `LatLngBounds(latLng,
latLng)` or extend the existing one.  The bounds object of the external
mapping library is abstracted as the list of points it has absorbed. -/
def expandBoundingBox (latLng : Int × Int) (s : St) : St :=
  match s.boundsOfPolyLine with
  | none => { s with boundsOfPolyLine := some [latLng, latLng] }
  | some b => { s with boundsOfPolyLine := some (b ++ [latLng]) }

/-- `displayPolyLine(polyData)`: absorb every point into the bounding box,
then push a new polyline with the given or default color.  The final
`map.fitBounds(boundsOfPolyLine)` is a rendering call on the external map
object. -/
def displayPolyLine (polyData : PolyData) (s : St) : St :=
  let s := polyData.points.foldl (fun st p => expandBoundingBox p st) s
  let color := if jsTruthyStr polyData.color then polyData.color.getD "" else "#003399"
  { s with existingPolylines :=
      s.existingPolylines ++ [{ path := polyData.points, color := color,
                                strokeWeight := 4, displayed := true }] }

/-- The second half of `addStopMarker`: icon choice, marker construction
(a MarkerWithLabel when `selected || text`, with an empty label forced for
selected markers), registration in the chosen object, and the click and
dragend listeners (modelled by `markerClick` and `markerDragEnd` below). -/
def createStopMarker (env : Env) (stopId stopName : String)
    (stopLat stopLon locationType : Int) (selected : Bool)
    (text : Option String) (s : St) : St × Marker :=
  let icon : Icon :=
    if selected then .selected
    else if locationType = 1 then .backgroundStation
    else .background
  let marker : Marker :=
    { stopId := stopId, stopName := stopName, position := (stopLat, stopLon),
      displayed := true, draggable := !env.forbid_editing, icon := icon,
      label := if selected || jsTruthyStr text then some (text.getD "") else none }
  if selected then
    ({ s with stopMarkersSelected := setKey s.stopMarkersSelected stopId marker }, marker)
  else
    ({ s with stopMarkersBackground := setKey s.stopMarkersBackground stopId marker }, marker)

/-- `addStopMarker(stopId, stopName, stopLat, stopLon, locationType,
selected, text)`.  A stop already selected only gets its label text
extended; a background stop stays as it is unless it is being selected, in
which case its background marker is first taken off the map and deleted
from the background object, and only then is the new selected marker
created and recorded. -/
def addStopMarker (env : Env) (stopId stopName : String)
    (stopLat stopLon locationType : Int) (selected : Bool)
    (text : Option String) (s : St) : St × Marker :=
  match getKey s.stopMarkersSelected stopId with
  | some marker =>
      if jsTruthyStr text then
        let oldText := marker.label.getD ""
        let oldText := if oldText ≠ "" then oldText ++ "<br>" else oldText
        let marker := { marker with label := some (oldText ++ text.getD "") }
        ({ s with stopMarkersSelected := setKey s.stopMarkersSelected stopId marker },
         marker)
      else (s, marker)
  | none =>
    match getKey s.stopMarkersBackground stopId with
    | some mb =>
        if selected then
          let s := { s with
            stopMarkersBackground := delKey s.stopMarkersBackground stopId,
            orphans := markerSetMapNull mb :: s.orphans }
          createStopMarker env stopId stopName stopLat stopLon locationType selected text s
        else (s, mb)
    | none =>
        createStopMarker env stopId stopName stopLat stopLon locationType selected text s

/-- `addStopMarkerFromList(list, selected, text)`: positional unpacking of
a stops.txt row. -/
def addStopMarkerFromList (env : Env) (list : StopRow) (selected : Bool)
    (text : Option String) (s : St) : St × Marker :=
  addStopMarker env list.stopId list.stopName list.stopLat list.stopLon
    list.locationType selected text s

/-- The marker-adding loop of `callbackDisplayStopsBackground`: add each
stop as a background marker and delete its id from the local copy of the
old background object when present there. -/
def cdsbLoop (env : Env) : List StopRow → St → StrMap → St × StrMap
  | [], s, old => (s, old)
  | row :: rest, s, old =>
      let p := addStopMarkerFromList env row false none s
      let old := if (getKey old p.2.stopId).isSome then delKey old p.2.stopId else old
      cdsbLoop env rest p.1 old

/-- `callbackDisplayStopsBackground(data, responseCode)`: on a 200
response, snapshot the background object, add the fetched stops, and call
`setMap(null)` on every marker whose id was not re-fetched.  Those stale
markers stay as keys of `stopMarkersBackground` (only the local copy is
emptied), which the final `mapVals` mirrors by mutating them in place. -/
def callbackDisplayStopsBackground (env : Env) (stops : List StopRow)
    (responseCode : Nat) (s : St) : St :=
  if responseCode ≠ 200 then s
  else
    let r := cdsbLoop env stops s s.stopMarkersBackground
    let stale := mapVals
      (fun k v => if (getKey r.2 k).isSome then markerSetMapNull v else v)
      r.1.stopMarkersBackground
    { r.1 with stopMarkersBackground := stale }

/-- The regex `/(19|20\d\d)(0[1-9]|1[012])(0[1-9]|[12][0-9]|3[01])/` tried
at index `i`; the first alternative of group 1 (`19`) and the second
(`20\d\d`) start with different characters, so no backtracking between
them is possible. -/
def dateMatchAt (cs : List Char) (i : Nat) : Bool :=
  let g1ends : List Nat :=
    (match cs.get? i, cs.get? (i + 1) with
     | some '1', some '9' => [i + 2]
     | _, _ => []) ++
    (match cs.get? i, cs.get? (i + 1), cs.get? (i + 2), cs.get? (i + 3) with
     | some '2', some '0', some a, some b =>
         if isDigitCh a && isDigitCh b then [i + 4] else []
     | _, _, _, _ => [])
  g1ends.any (fun j =>
    (match cs.get? j, cs.get? (j + 1) with
     | some '0', some c2 => '1' ≤ c2 && c2 ≤ '9'
     | some '1', some c2 => c2 = '0' || c2 = '1' || c2 = '2'
     | _, _ => false) &&
    (match cs.get? (j + 2), cs.get? (j + 3) with
     | some '0', some c2 => '1' ≤ c2 && c2 ≤ '9'
     | some '1', some c2 => isDigitCh c2
     | some '2', some c2 => isDigitCh c2
     | some '3', some c2 => c2 = '0' || c2 = '1'
     | _, _ => false))

/-- `parseDateInput`, as a function of the text of `startDateInput`:
return the whole text when the date regex matches anywhere in it, the
empty string otherwise. -/
def parseDateInputText (text : String) : String :=
  if (List.range (text.data.length + 1)).any (dateMatchAt text.data) then text else ""

/-- `parseTimeInput()` reading the `timeInput` DOM element. -/
def parseTimeInput (s : St) : Except JsError JsValue :=
  parseTimeInputText s.timeInput

/-- `parseDateInput()` reading the `startDateInput` DOM element. -/
def parseDateInput (s : St) : String :=
  parseDateInputText s.startDateInput

/-- `countToRepeatedDots(count)`: a string of
`Math.ceil(Math.log(count) / 0.693148) + 1` dots.  The source computes the
dot count in floating point; for the trip counts that reach it
(1 up to well below 2^16) the value equals 1 for count 1 and
`Nat.log 2 count + 2` otherwise, which is how it is modelled here. -/
def countToRepeatedDots (count : Nat) : String :=
  String.mk (List.replicate (if count ≤ 1 then 1 else Nat.log 2 count + 2) '.')

/-- `fetchStopInfoWindow(marker)`: build the `/json/stoptrips` URL.
`parseTimeInput()` is evaluated while the URL is concatenated, so its
ReferenceError (time input with a seconds field) propagates and no request
is issued. -/
def fetchStopInfoWindow (marker : Marker) (s : St) :
    Except JsError (St × List FetchCall) :=
  match parseTimeInput s with
  | .error e => .error e
  | .ok t => .ok (s, [FetchCall.stopTrips marker.stopId (jsValToString t) (parseDateInput s)])

/-- The marker `click` listener installed by `addStopMarker`. -/
def markerClick (marker : Marker) (s : St) : Except JsError (St × List FetchCall) :=
  fetchStopInfoWindow marker s

/-- `changeStopLocation(marker)`: build and fetch the
`/json/setstoplocation` URL. -/
def changeStopLocation (marker : Marker) (s : St) : St × List FetchCall :=
  (s, [FetchCall.setStopLocation marker.stopId marker.position.1 marker.position.2])

/-- The marker `dragend` listener installed by `addStopMarker`: reveal the
edit div, show "updating...", then `changeStopLocation`. -/
def markerDragEnd (marker : Marker) (s : St) : St × List FetchCall :=
  changeStopLocation marker { s with editVisible := true, editStatus := "updating..." }

/-- `saveData()`. -/
def saveData (s : St) : St × List FetchCall :=
  (s, [FetchCall.saveData])

/-- `fetchStopsInBounds(bounds)` with the bounds of the visible map. -/
def fetchStopsInBounds (north east south west : Int) (s : St) : St × List FetchCall :=
  (s, [FetchCall.boundBoxStops north east south west])

/-- `callbackMoveEnd()`: the map moved, search for stops near the center. -/
def callbackMoveEnd (north east south west : Int) (s : St) : St × List FetchCall :=
  fetchStopsInBounds north east south west s

/-- `callbackZoomEnd()`: the source's handler has an empty body. -/
def callbackZoomEnd (s : St) : St := s

/-- `stopTextSearchSubmit()`: fetch `/json/stopsearch` with the raw input
text (the source carries a `TODO URI escape`). -/
def stopTextSearchSubmit (s : St) : St × List FetchCall :=
  (s, [FetchCall.stopSearch s.stopTextSearchInput])

/-- Reset every trip span to `tripChoice` and mark the span of `tripId`
(if present) as `tripChoiceSelected`. -/
def tripInfoSelect (tripId : String) (patterns : List PatternView) : List PatternView :=
  patterns.map (fun p =>
    { p with trips := p.trips.map (fun t => { t with chosen := t.tripId = tripId }) })

/-- `selectTrip(tripId)`: re-style the trip spans inside `tripInfo`, clear
the map, then fetch the stop times, the shape and the rows of the trip —
three GET requests. -/
def selectTrip (tripId : String) (s : St) : St × List FetchCall :=
  let s := { s with tripInfo := s.tripInfo.map (tripInfoSelect tripId) }
  let s := clearMap s
  (s, [FetchCall.tripStopTimes tripId, FetchCall.tripShape tripId,
       FetchCall.tripRows tripId])

/-- `tripTextSearchSubmit()`. -/
def tripTextSearchSubmit (s : St) : St × List FetchCall :=
  selectTrip s.tripTextSearchInput s

/-- `fetchPatterns(routeId)`: build the `/json/routepatterns` URL;
`parseTimeInput()` may raise while the URL is concatenated. -/
def fetchPatterns (routeId : String) (s : St) : Except JsError (St × List FetchCall) :=
  match parseTimeInput s with
  | .error e => .error e
  | .ok t => .ok (s, [FetchCall.routePatterns routeId (jsValToString t) (parseDateInput s)])

/-- `selectRoute(routeId)`: clear the previous selection styling, remove
any expanded `tripInfo`, record the selection, style the chosen route and
fetch its patterns.  When no `route_<routeId>` element exists,
`span.className` dereferences null and a TypeError is raised (the class
resets and the `tripInfo` removal have already happened at that point;
the error value does not carry them). -/
def selectRoute (routeId : String) (s : St) : Except JsError (St × List FetchCall) :=
  let s := { s with
    routeList := s.routeList.map (fun rv : RouteView => { rv with chosen := false }),
    tripInfo := none,
    selectedRoute := some routeId }
  if s.routeList.any (fun rv => rv.routeId = routeId) then
    let s := { s with
      routeList := s.routeList.map
        (fun rv : RouteView =>
          if rv.routeId = routeId then { rv with chosen := true } else rv) }
    fetchPatterns routeId s
  else .error .typeError

/-- `fetchRoutes()`. -/
def fetchRoutes (s : St) : St × List FetchCall :=
  (s, [FetchCall.routes])

/-- `callbackDisplayStops(data, responseCode)`: on 200, clear the map and
add every returned stop as a selected marker; a single returned stop
additionally gets its info window fetched (which evaluates
`parseTimeInput()` and may raise). -/
def callbackDisplayStops (env : Env) (stops : List StopRow) (responseCode : Nat)
    (s : St) : Except JsError (St × List FetchCall) :=
  if responseCode ≠ 200 then .ok (s, [])
  else
    let s := clearMap s
    match stops with
    | [one] =>
        let p := addStopMarkerFromList env one true none s
        fetchStopInfoWindow p.2 p.1
    | _ =>
        .ok (stops.foldl (fun acc row => (addStopMarkerFromList env row true none acc).1) s, [])

/-- One `<tr>` of the info-window table. -/
def stopInfoTripRow (env : Env) (tt : TimeTrip) : String :=
  "<tr onClick='map.closeInfoWindow();selectTrip(\"" ++ tt.tripId ++ "\")'>" ++
  "<td>" ++ tt.serviceId ++
  "<td align='right'>" ++ (if tt.timepoint then "" else "~") ++
  formatTime env.twelveHourTime tt.time ++ "<td>" ++ tt.tripName ++ "</tr>"

/-- `callbackDisplayStopInfoWindow(marker, data, responseCode)`: build the
departure table and open the info window on the marker. -/
def callbackDisplayStopInfoWindow (env : Env) (marker : Marker)
    (timeTrips : List TimeTrip) (responseCode : Nat) (s : St) : St :=
  if responseCode ≠ 200 then s
  else
    let html := "<b>" ++ marker.stopName ++ "</b> (" ++ marker.stopId ++ ")<br>"
    let html := html ++ "(" ++ toString marker.position.1 ++ ", " ++
      toString marker.position.2 ++ ")<br>"
    let html := html ++ "<table><tr><th>service_id<th>time<th>name</tr>"
    let html := timeTrips.foldl (fun h tt => h ++ stopInfoTripRow env tt) html
    let html := html ++ "</table>"
    { s with infoWindowContent := some html }

/-- `callbackDisplayRoutes(data, responseCode)`: the non-200 branch reads
`patternDiv.appendChild(div)` instead of returning; `div` is never a
global (it is `var`-local to `callbackDisplayPatterns`) and `patternDiv`
only becomes one after `callbackDisplayPatterns` has run, so the branch
raises a ReferenceError either way and the callback aborts there without
touching the DOM.  On 200, the route list is rebuilt from the response. -/
def callbackDisplayRoutes (routes : List RouteRow) (responseCode : Nat)
    (s : St) : Except JsError St :=
  if responseCode ≠ 200 then .error .referenceError
  else
    .ok { s with routeList := routes.map (fun r =>
      { routeId := r.routeId, shortName := r.shortName, name := r.routeName,
        chosen := false }) }

/-- One `patternSection` div of `callbackDisplayPatterns`. -/
def patternSectionView (env : Env) (pat : PatternRow) : PatternView :=
  { unusual := pat.unusual = "1"
    nameText := pat.name
    countText := ", " ++ toString (pat.earlier + pat.trips.length + pat.later) ++ " trips: "
    earlyDots := if pat.earlier > 0 then countToRepeatedDots pat.earlier ++ " " else ""
    trips := pat.trips.map (fun t =>
      { timeText := formatTime env.twelveHourTime t.time, tripId := t.tripId,
        chosen := false })
    lateDots := if pat.later > 0 then " " ++ countToRepeatedDots pat.later else "" }

/-- `callbackDisplayPatterns(data, responseCode)`: on 200, clear the map,
build the `tripInfo` div with one section per pattern, append it to the
container of `selectedRoute` (a TypeError if no such container exists —
the map clearing has already happened; the error value does not carry it),
and, when any trip was iterated (`tripId != null` on the function-scoped
loop variable), select the first trip of the first pattern — `firstTrip`
stays `null` when the first pattern has no trips, in which case the string
`"null"` reaches the URL. -/
def callbackDisplayPatterns (env : Env) (patterns : List PatternRow)
    (responseCode : Nat) (s : St) : Except JsError (St × List FetchCall) :=
  if responseCode ≠ 200 then .ok (s, [])
  else
    let firstTrip : Option String :=
      match patterns with
      | p :: _ => match p.trips with
        | t :: _ => some t.tripId
        | [] => none
      | [] => none
    let anyTrip : Bool := patterns.any (fun p => !p.trips.isEmpty)
    -- the callback modifies neither `selectedRoute` nor the route list,
    -- so the container lookup reads the original state
    let s2 := { clearMap s with tripInfo := some (patterns.map (patternSectionView env)) }
    match s.selectedRoute with
    | some rid =>
        if s.routeList.any (fun rv => rv.routeId = rid) then
          if anyTrip then .ok (selectTrip (firstTrip.getD "null") s2)
          else .ok (s2, [])
        else .error .typeError
    | none => .error .typeError

/-- `callbackDisplayTripStopTimes(data, responseCode)` after the 200 and
null checks hands `stopsTimes[0..2]` to `displayTripStopTimes`; this is
its stop loop, carried out with the running index used to look up the
arrival and departure arrays (`undefined` and `null` entries both fail the
`!= null` test). -/
def displayTripStopTimesLoop (env : Env)
    (arr dep : Option (List (Option Nat))) :
    List StopRow → Nat → St → St
  | [], _, s => s
  | row :: rest, i, s =>
      let arrI : Option Nat :=
        match arr with
        | none => none
        | some a => (a.get? i).getD none
      let label : Option String :=
        match arrI with
        | some t =>
            let l := formatTime env.twelveHourTime t
            let l :=
              match dep with
              | none => l
              | some dl =>
                  match (dl.get? i).getD none with
                  | some dt => if t ≠ dt then l ++ "-" ++ formatTime env.twelveHourTime dt else l
                  | none => l
            some l
        | none => none
      let p := addStopMarkerFromList env row true label s
      let s := expandBoundingBox p.2.position p.1
      displayTripStopTimesLoop env arr dep rest (i + 1) s

/-- `displayTripStopTimes(stops, arrivalTimes, departureTimes)`; the final
`map.fitBounds(boundsOfPolyLine)` is a rendering call on the external map
object. -/
def displayTripStopTimes (env : Env) (stops : List StopRow)
    (arr dep : Option (List (Option Nat))) (s : St) : St :=
  displayTripStopTimesLoop env arr dep stops 0 s

/-- `callbackDisplayTripStopTimes(data, responseCode)`. -/
def callbackDisplayTripStopTimes (env : Env)
    (stopsTimes : Option (List StopRow × Option (List (Option Nat)) × Option (List (Option Nat))))
    (responseCode : Nat) (s : St) : St :=
  if responseCode ≠ 200 then s
  else
    match stopsTimes with
    | none => s
    | some (stops, arr, dep) => displayTripStopTimes env stops arr dep s

/-- `callbackDisplayTripPolyLine(data, responseCode)`. -/
def callbackDisplayTripPolyLine (polyData : Option PolyData)
    (responseCode : Nat) (s : St) : St :=
  if responseCode ≠ 200 then s
  else
    match polyData with
    | none => s
    | some p => displayPolyLine p s

/-- `formatDictionary(d)`: key-value pairs joined with `&nbsp;&nbsp; `,
tracked with the `first` flag of the source. -/
def formatDictionary (d : List (String × String)) : String :=
  (d.foldl
    (fun acc kv =>
      let acc := if acc.2 then acc else (acc.1 ++ "&nbsp;&nbsp; ", false)
      (acc.1 ++ "<b>" ++ kv.1 ++ "</b>=" ++ kv.2, false))
    ("", true)).1

/-- `svgTag(src, attributes)`: browser-dependent embedding markup. -/
def svgTag (env : Env) (src attributes : String) : String :=
  if env.userAgentIsMsie then
    if env.svgControlInstalled then
      "<embed pluginspage='http://www.adobe.com/svg/viewer/install/' src='" ++
        src ++ "' " ++ attributes ++ "></embed>"
    else
      "<p>Please install the <a href='http://www.adobe.com/svg/viewer/install/'>Adobe SVG Viewer</a> to get SVG support in IE</p>"
  else
    "<object data='" ++ src ++ "' type='image/svg+xml' " ++ attributes ++
      "><p>No SVG support in your browser. Try Firefox 1.5 or newer or install the <a href='http://www.adobe.com/svg/viewer/install/'>Adobe SVG Viewer</a></p></object>"

/-- `sizeRouteList()`: recompute the content height from the window and
bar metrics (the JavaScript `offsetHeight + style.marginTop` coercion is
abstracted by carrying the margin as a number in `Env`). -/
def sizeRouteList (env : Env) (s : St) : St :=
  let bottombarHeight : Int :=
    if s.bottombarDisplayed then env.bottombarOffsetHeight + env.bottombarMarginTop
    else 0
  { s with contentHeight :=
      env.windowHeight - env.topbarOffsetHeight - 15 - bottombarHeight }

/-- `callbackDisplayTripRows(data, responseCode, tripId)`: on 200 with a
non-null row list, build the bottombar HTML (rows plus the `/ttablegraph`
SVG object markup — that URL is loaded by the browser as an embedded
object, not fetched through `downloadUrl`), reveal the bottombar and
resize the route list. -/
def callbackDisplayTripRows (env : Env) (tripId : String)
    (rows : Option (List (String × List (String × String))))
    (responseCode : Nat) (s : St) : St :=
  if responseCode ≠ 200 then s
  else
    match rows with
    | none => s
    | some rs =>
        let html := rs.foldl
          (fun h r => h ++ "<b>" ++ r.1 ++ "</b>: " ++ formatDictionary r.2 ++ "<br>") ""
        let html := html ++ svgTag env
          ("/ttablegraph?height=100&trip=" ++ encodeURIComponent tripId)
          "height='115' width='100%'"
        let s := { s with bottombarDisplayed := true,
                          bottombarHeightStyle := "175px", bottombarHtml := html }
        sizeRouteList env s

/-- `fetchTripPolyLine(tripId)`. -/
def fetchTripPolyLine (tripId : String) (s : St) : St × List FetchCall :=
  (s, [FetchCall.tripShape tripId])

/-- `fetchTripRows(tripId)`. -/
def fetchTripRows (tripId : String) (s : St) : St × List FetchCall :=
  (s, [FetchCall.tripRows tripId])

/-- Every HTTP response callback of the client, carrying the already
JSON-decoded response data it consumes (`eval(data)` / `JSON.parse(data)`
happen after the response-code check in every callback that checks). -/
inductive Callback where
  | displayStops (stops : List StopRow)
  | displayStopsBackground (stops : List StopRow)
  | displayStopInfoWindow (marker : Marker) (timeTrips : List TimeTrip)
  /-- the anonymous callback of `changeStopLocation` -/
  | stopLocationEdit (data : String)
  /-- the anonymous callback of `saveData` -/
  | saveDataEdit (data : String)
  | displayRoutes (routes : List RouteRow)
  | displayPatterns (patterns : List PatternRow)
  | displayTripStopTimes
      (stopsTimes : Option (List StopRow × Option (List (Option Nat)) × Option (List (Option Nat))))
  | displayTripPolyLine (polyData : Option PolyData)
  | displayTripRows (tripId : String)
      (rows : Option (List (String × List (String × String))))
deriving DecidableEq

/-- Run a response callback on the client state, yielding the new state
and the requests the callback itself issues. -/
def runCallback (env : Env) (cb : Callback) (responseCode : Nat) (s : St) :
    Except JsError (St × List FetchCall) :=
  match cb with
  | .displayStops stops => callbackDisplayStops env stops responseCode s
  | .displayStopsBackground stops =>
      .ok (callbackDisplayStopsBackground env stops responseCode s, [])
  | .displayStopInfoWindow marker tts =>
      .ok (callbackDisplayStopInfoWindow env marker tts responseCode s, [])
  | .stopLocationEdit data =>
      -- `document.getElementById("edit_status").innerHTML = unescape(data)`,
      -- with no response-code check
      .ok ({ s with editStatus := unescape data }, [])
  | .saveDataEdit data =>
      -- `document.getElementById("edit_status").innerHTML = data`,
      -- with no response-code check
      .ok ({ s with editStatus := data }, [])
  | .displayRoutes routes =>
      (callbackDisplayRoutes routes responseCode s).map (fun st => (st, []))
  | .displayPatterns patterns => callbackDisplayPatterns env patterns responseCode s
  | .displayTripStopTimes stopsTimes =>
      .ok (callbackDisplayTripStopTimes env stopsTimes responseCode s, [])
  | .displayTripPolyLine polyData =>
      .ok (callbackDisplayTripPolyLine polyData responseCode s, [])
  | .displayTripRows tripId rows =>
      .ok (callbackDisplayTripRows env tripId rows responseCode s, [])

/-- What each callback does on a non-200 response (the statement of the
error-handling discipline): the checking callbacks return the state
untouched and issue nothing; `callbackDisplayRoutes` raises a
ReferenceError; the two edit callbacks write the response text into the
`edit_status` element regardless of the code. -/
def abortBehavior (cb : Callback) (s : St) : Except JsError (St × List FetchCall) :=
  match cb with
  | .displayRoutes _ => .error .referenceError
  | .stopLocationEdit data => .ok ({ s with editStatus := unescape data }, [])
  | .saveDataEdit data => .ok ({ s with editStatus := data }, [])
  | _ => .ok (s, [])

/-- Complete a list of in-flight responses in the given arrival order, all
with the same response code, threading the client state. -/
def completeInOrder (env : Env) (cbs : List Callback) (responseCode : Nat)
    (s : St) : Except JsError St :=
  cbs.foldlM (fun st cb => (runCallback env cb responseCode st).map Prod.fst) s

/-- The GMarker options object handed to the LabeledMarker constructor
(`part_000`), with the fields that constructor reads; `none` models an
absent (`undefined`) property. -/
structure GMarkerOptions where
  labelText : Option String := none
  labelClass : Option String := none
  labelOffset : Option (Int × Int) := none
  clickable : Option Bool := none
  draggable : Option Bool := none
deriving DecidableEq

/-- JavaScript `x || dflt` on an optional boolean property. -/
def jsOrBool (v : Option Bool) (dflt : Bool) : Bool :=
  match v with
  | some true => true
  | some false => dflt
  | none => dflt

/-- JavaScript `x || dflt` on an optional string property. -/
def jsOrStr (v : Option String) (dflt : String) : String :=
  match v with
  | some t => if t ≠ "" then t else dflt
  | none => dflt

/-- JavaScript truthiness of an optional boolean property. -/
def jsTruthyBool (v : Option Bool) : Bool := v.getD false

/-- A constructed LabeledMarker: the fields the constructor sets, plus the
options object as it stands after the constructor (which mutates
`opt_opts.draggable`). -/
structure LabeledMarkerState where
  latlng : Int × Int
  labelText_ : String
  labelClass_ : String
  labelOffset_ : Int × Int
  clickable_ : Bool
  opts : GMarkerOptions
deriving DecidableEq

/-- The `LabeledMarker(latlng, opt_opts)` constructor: label fields default
through `||`, `clickable_` is `opt_opts.clickable || true`, and a truthy
`opt_opts.draggable` is overwritten with `false` before the options reach
the GMarker constructor. -/
def LabeledMarker.construct (latlng : Int × Int) (opt_opts : GMarkerOptions) :
    LabeledMarkerState :=
  let labelText_ := jsOrStr opt_opts.labelText ""
  let labelClass_ := jsOrStr opt_opts.labelClass "markerLabel"
  let labelOffset_ := (opt_opts.labelOffset).getD (0, 0)
  let clickable_ := jsOrBool opt_opts.clickable true
  let opt_opts :=
    if jsTruthyBool opt_opts.draggable then { opt_opts with draggable := some false }
    else opt_opts
  { latlng := latlng, labelText_ := labelText_, labelClass_ := labelClass_,
    labelOffset_ := labelOffset_, clickable_ := clickable_, opts := opt_opts }

/-- The DOM events `LabeledMarker.prototype.initialize` passes through from
the label div to the marker. -/
def eventPassthrus : List String :=
  ["click", "dblclick", "mousedown", "mouseup", "mouseover", "mouseout"]

/-- The pass-through listeners `initialize` installs on the label div:
all of `eventPassthrus` when the marker is clickable, none otherwise. -/
def LabeledMarker.initListeners (m : LabeledMarkerState) : List String :=
  if m.clickable_ then eventPassthrus else []

/-- The operations of the marker lifecycle named by the marker-uniqueness
claim, as an operation language over the client state. -/
inductive Op where
  | add (stopId stopName : String) (stopLat stopLon locationType : Int)
      (selected : Bool) (text : Option String)
  | addFromList (row : StopRow) (selected : Bool) (text : Option String)
  | displayBackground (stops : List StopRow) (responseCode : Nat)
  | clear
deriving DecidableEq

def applyOp (env : Env) (s : St) : Op → St
  | .add stopId stopName la lo lt sel text =>
      (addStopMarker env stopId stopName la lo lt sel text s).1
  | .addFromList row sel text => (addStopMarkerFromList env row sel text s).1
  | .displayBackground stops code => callbackDisplayStopsBackground env stops code s
  | .clear => clearMap s

def applyOps (env : Env) (ops : List Op) (s : St) : St :=
  ops.foldl (applyOp env) s

/-- No stop id is a key of both marker objects. -/
def markersDisjoint (s : St) : Prop :=
  ∀ p ∈ s.stopMarkersSelected, getKey s.stopMarkersBackground p.1 = none

/-- A JavaScript object holds at most one property per key; for the
association-list model this is key distinctness. -/
def keysNoDup (m : StrMap) : Prop := (keysOf m).Nodup

/-- Ghost markers (dropped from the objects) are always off the map. -/
def orphansUndisplayed (s : St) : Prop := ∀ m ∈ s.orphans, m.displayed = false

/-- Ghost polylines are always off the map. -/
def polyOrphansUndisplayed (s : St) : Prop := ∀ q ∈ s.polyOrphans, q.displayed = false

/-- The state invariant: key uniqueness in both marker objects, key
disjointness between them, and every unreferenced object undisplayed. -/
def StInv (s : St) : Prop :=
  markersDisjoint s ∧ keysNoDup s.stopMarkersSelected ∧
  keysNoDup s.stopMarkersBackground ∧ orphansUndisplayed s ∧
  polyOrphansUndisplayed s

instance (s : St) : Decidable (StInv s) := by
  unfold StInv markersDisjoint keysNoDup orphansUndisplayed polyOrphansUndisplayed
  infer_instance

/-- Every marker object the client ever created that is currently shown on
the map: the values of both marker objects and the ghost orphans,
filtered to the displayed ones. -/
def displayedMarkers (s : St) : List Marker :=
  (s.stopMarkersSelected.map Prod.snd ++ s.stopMarkersBackground.map Prod.snd ++
    s.orphans).filter (fun m => m.displayed)

/-- Every polyline the client ever created that is currently shown. -/
def displayedPolylines (s : St) : List Polyline :=
  (s.existingPolylines ++ s.polyOrphans).filter (fun q => q.displayed)

/-- The nine endpoint paths enumerated by the specification. -/
def specNineEndpoints : List String :=
  ["/json/boundboxstops", "/json/stopsearch", "/json/routes",
   "/json/routepatterns", "/json/tripstoptimes", "/json/tripshape",
   "/json/triprows", "/json/setstoplocation", "/json/savedata"]

/-- The paths actually issued through `downloadUrl`: the specification's
nine plus `/json/stoptrips` (the info-window fetch). -/
def clientEndpoints : List String := specNineEndpoints ++ ["/json/stoptrips"]

/-- Response data for the race demonstration: the earlier (slow) stop
search returns these two stops... -/
def raceEarlierData : List StopRow :=
  [{ stopId := "stopEarlierA", stopName := "Earlier A", stopLat := 1,
     stopLon := 2, locationType := 0 },
   { stopId := "stopEarlierB", stopName := "Earlier B", stopLat := 3,
     stopLon := 4, locationType := 0 }]

/-- ...and the later (fast) stop search returns these two. -/
def raceLaterData : List StopRow :=
  [{ stopId := "stopLaterA", stopName := "Later A", stopLat := 5,
     stopLon := 6, locationType := 0 },
   { stopId := "stopLaterB", stopName := "Later B", stopLat := 7,
     stopLon := 8, locationType := 0 }]

/-- A state with one route in the route list, for exercising
`selectRoute`. -/
def stOneRoute : St :=
  { initSt with routeList :=
      [{ routeId := "r1", shortName := "R", name := "Route One", chosen := false }] }

/-- The result `selectRoute "r1"` produces on `stOneRoute`. -/
def selectRouteResult : St × List FetchCall :=
  ({ stOneRoute with
      routeList :=
        [{ routeId := "r1", shortName := "R", name := "Route One", chosen := true }],
      selectedRoute := some "r1" },
   [FetchCall.routePatterns "r1" "" ""])

/-- A marker for exercising the click handler. -/
def clickMarker : Marker :=
  { stopId := "s1", stopName := "Stop One", position := (1, 2),
    displayed := true, draggable := true, icon := .background, label := none }

/-- The result `markerClick clickMarker` produces on `initSt`. -/
def markerClickResult : St × List FetchCall :=
  (initSt, [FetchCall.stopTrips "s1" "" ""])

/-- A small polyline payload for the lifecycle counterexample. -/
def cxPolyData : PolyData := { points := [(1, 2)], color := none }

/-- A state whose background object holds one marker under key "bg1",
for the witnesses about selecting a background stop. -/
def bgMarker : Marker :=
  { stopId := "bg1", stopName := "Background stop", position := (3, 4),
    displayed := true, draggable := true, icon := .background, label := none }

def stOneBackground : St := { initSt with stopMarkersBackground := [("bg1", bgMarker)] }

/-- `stOneRoute` with its route also recorded as selected, as
`selectRoute "r1"` leaves it before the patterns response arrives. -/
def stRouteSelected : St := { stOneRoute with selectedRoute := some "r1" }

theorem getKey_eq_none_iff (m : StrMap) (k : String) :
    getKey m k = none ↔ k ∉ keysOf m := by
  induction m with
  | nil => simp [getKey, keysOf]
  | cons p rest ih =>
      obtain ⟨k0, v0⟩ := p
      by_cases h : k0 = k
      · subst h
        simp [getKey, keysOf]
      · have h' : ¬ k = k0 := fun hh => h hh.symm
        simp [getKey, keysOf, h, h', ih]

theorem getKey_some_mem {m : StrMap} {k : String} {v : Marker}
    (h : getKey m k = some v) : (k, v) ∈ m := by
  induction m with
  | nil => simp [getKey] at h
  | cons p rest ih =>
      obtain ⟨k0, v0⟩ := p
      by_cases hk : k0 = k
      · subst hk
        simp [getKey] at h
        simp [h]
      · simp [getKey, hk] at h
        simp [ih h]

theorem getKey_setKey_self (m : StrMap) (k : String) (v : Marker) :
    getKey (setKey m k v) k = some v := by
  induction m with
  | nil => simp [setKey, getKey]
  | cons p rest ih =>
      obtain ⟨k0, v0⟩ := p
      by_cases hk : k0 = k <;> simp [setKey, getKey, hk, ih]

theorem getKey_setKey_ne (m : StrMap) {k k' : String} (v : Marker)
    (h : k' ≠ k) : getKey (setKey m k v) k' = getKey m k' := by
  have h' : ¬ k = k' := fun hh => h hh.symm
  induction m with
  | nil => simp [setKey, getKey, h']
  | cons p rest ih =>
      obtain ⟨k0, v0⟩ := p
      by_cases hk : k0 = k
      · subst hk
        simp [setKey, getKey, h']
      · simp only [setKey, if_neg hk, getKey]
        by_cases hk' : k0 = k' <;> simp [hk', ih]

theorem getKey_delKey_ne (m : StrMap) {k k' : String} (h : k' ≠ k) :
    getKey (delKey m k) k' = getKey m k' := by
  have h' : ¬ k = k' := fun hh => h hh.symm
  induction m with
  | nil => simp [delKey]
  | cons p rest ih =>
      obtain ⟨k0, v0⟩ := p
      by_cases hk : k0 = k
      · subst hk
        simp [delKey, getKey, h']
      · simp only [delKey, if_neg hk, getKey]
        by_cases hk' : k0 = k' <;> simp [hk', ih]

theorem getKey_delKey_self {m : StrMap} (k : String) (h : keysNoDup m) :
    getKey (delKey m k) k = none := by
  induction m with
  | nil => simp [delKey, getKey]
  | cons p rest ih =>
      obtain ⟨k0, v0⟩ := p
      rw [keysNoDup, keysOf, List.map_cons, List.nodup_cons] at h
      by_cases hk : k0 = k
      · subst hk
        simp only [delKey, if_true, eq_self_iff_true]
        rw [getKey_eq_none_iff]
        exact h.1
      · simp only [delKey, if_neg hk, getKey, if_neg hk]
        exact ih h.2

theorem keysOf_delKey_sublist (m : StrMap) (k : String) :
    List.Sublist (keysOf (delKey m k)) (keysOf m) := by
  induction m with
  | nil => simp [delKey]
  | cons p rest ih =>
      obtain ⟨k0, v0⟩ := p
      by_cases hk : k0 = k
      · simp only [delKey, if_pos hk, keysOf, List.map_cons]
        exact List.sublist_cons_of_sublist _ (List.Sublist.refl _)
      · simp only [delKey, if_neg hk, keysOf, List.map_cons]
        exact ih.cons₂ _

theorem keysNoDup_delKey {m : StrMap} (k : String) (h : keysNoDup m) :
    keysNoDup (delKey m k) :=
  (keysOf_delKey_sublist m k).nodup h

theorem keysOf_setKey (m : StrMap) (k : String) (v : Marker) :
    keysOf (setKey m k v) =
      if k ∈ keysOf m then keysOf m else keysOf m ++ [k] := by
  induction m with
  | nil => simp [setKey, keysOf]
  | cons p rest ih =>
      obtain ⟨k0, v0⟩ := p
      by_cases hk : k0 = k
      · subst hk
        simp [setKey, keysOf]
      · have h' : ¬ k = k0 := fun hh => hk hh.symm
        simp only [setKey, if_neg hk, keysOf, List.map_cons] at ih ⊢
        rw [ih]
        by_cases hm : k ∈ List.map Prod.fst rest <;>
          simp [hm, h', List.mem_cons]

theorem keysNoDup_setKey {m : StrMap} (k : String) (v : Marker)
    (h : keysNoDup m) : keysNoDup (setKey m k v) := by
  rw [keysNoDup, keysOf_setKey]
  by_cases hm : k ∈ keysOf m
  · simpa [hm] using h
  · rw [if_neg hm, List.nodup_append]
    refine ⟨h, List.nodup_singleton _, ?_⟩
    intro a ha hb
    simp at hb
    subst hb
    exact hm ha

theorem mem_setKey {m : StrMap} {k : String} {v : Marker} {p : String × Marker}
    (h : p ∈ setKey m k v) : p = (k, v) ∨ p ∈ m := by
  induction m with
  | nil => simpa [setKey] using h
  | cons q rest ih =>
      obtain ⟨k0, v0⟩ := q
      by_cases hk : k0 = k
      · subst hk
        simp only [setKey, if_true, eq_self_iff_true, List.mem_cons] at h
        rcases h with h | h
        · exact Or.inl h
        · exact Or.inr (List.mem_cons_of_mem _ h)
      · simp only [setKey, if_neg hk, List.mem_cons] at h
        rcases h with h | h
        · exact Or.inr (by simp [h])
        · rcases ih h with h2 | h2
          · exact Or.inl h2
          · exact Or.inr (List.mem_cons_of_mem _ h2)

theorem mem_delKey {m : StrMap} {k : String} {p : String × Marker}
    (h : p ∈ delKey m k) : p ∈ m := by
  induction m with
  | nil => simp [delKey] at h
  | cons q rest ih =>
      obtain ⟨k0, v0⟩ := q
      by_cases hk : k0 = k
      · subst hk
        simp only [delKey, if_true, eq_self_iff_true] at h
        exact List.mem_cons_of_mem _ h
      · simp only [delKey, if_neg hk, List.mem_cons] at h
        rcases h with h | h
        · simp [h]
        · exact List.mem_cons_of_mem _ (ih h)

theorem getKey_mapVals (f : String → Marker → Marker) (m : StrMap) (k : String) :
    getKey (mapVals f m) k = (getKey m k).map (f k) := by
  induction m with
  | nil => simp [mapVals, getKey]
  | cons p rest ih =>
      obtain ⟨k0, v0⟩ := p
      by_cases hk : k0 = k
      · subst hk
        simp [mapVals, getKey]
      · simp [mapVals, getKey, hk] at ih ⊢
        exact ih

theorem keysOf_mapVals (f : String → Marker → Marker) (m : StrMap) :
    keysOf (mapVals f m) = keysOf m := by
  induction m with
  | nil => simp [mapVals, keysOf]
  | cons p rest ih =>
      obtain ⟨k0, v0⟩ := p
      simp only [mapVals, keysOf, List.map_cons] at ih ⊢
      rw [ih]

theorem createStopMarker_inv (env : Env) (stopId stopName : String)
    (la lo lt : Int) (selected : Bool) (text : Option String) (s : St)
    (h : StInv s)
    (h1 : selected = true → getKey s.stopMarkersBackground stopId = none)
    (h2 : selected = false → getKey s.stopMarkersSelected stopId = none) :
    StInv (createStopMarker env stopId stopName la lo lt selected text s).1 := by
  obtain ⟨hd, hns, hnb, ho, hp⟩ := h
  cases selected
  case false =>
    simp only [createStopMarker, Bool.false_eq_true, if_false]
    refine ⟨?_, hns, keysNoDup_setKey _ _ hnb, ho, hp⟩
    intro p hpMem
    by_cases hk : p.1 = stopId
    · exfalso
      rw [getKey_eq_none_iff] at h2
      exact h2 rfl (hk ▸ List.mem_map_of_mem Prod.fst hpMem)
    · rw [getKey_setKey_ne _ _ hk]
      exact hd p hpMem
  case true =>
    simp only [createStopMarker, if_true]
    refine ⟨?_, keysNoDup_setKey _ _ hns, hnb, ho, hp⟩
    intro p hpMem
    rcases mem_setKey hpMem with hp2 | hp2
    · rw [hp2]
      exact h1 rfl
    · exact hd p hp2

theorem addStopMarker_inv (env : Env) (stopId stopName : String)
    (la lo lt : Int) (selected : Bool) (text : Option String) (s : St)
    (h : StInv s) :
    StInv (addStopMarker env stopId stopName la lo lt selected text s).1 := by
  unfold addStopMarker
  cases hSel : getKey s.stopMarkersSelected stopId with
  | some marker =>
      obtain ⟨hd, hns, hnb, ho, hp⟩ := h
      by_cases ht : jsTruthyStr text
      · simp only [ht, if_true]
        refine ⟨?_, keysNoDup_setKey _ _ hns, hnb, ho, hp⟩
        intro p hpMem
        rcases mem_setKey hpMem with hp2 | hp2
        · rw [hp2]
          show getKey s.stopMarkersBackground stopId = none
          exact hd (stopId, marker) (getKey_some_mem hSel)
        · exact hd p hp2
      · simp only [ht, if_false]
        exact ⟨hd, hns, hnb, ho, hp⟩
  | none =>
      cases hBg : getKey s.stopMarkersBackground stopId with
      | some mb =>
          cases selected
          case false =>
            simp only [Bool.false_eq_true, if_false]
            exact h
          case true =>
            simp only [if_true]
            obtain ⟨hd, hns, hnb, ho, hp⟩ := h
            apply createStopMarker_inv
            · refine ⟨?_, hns, keysNoDup_delKey _ hnb, ?_, hp⟩
              · intro p hpMem
                by_cases hk : p.1 = stopId
                · rw [hk]
                  exact getKey_delKey_self _ hnb
                · rw [getKey_delKey_ne _ hk]
                  exact hd p hpMem
              · intro m hm
                rcases List.mem_cons.1 hm with hm2 | hm2
                · rw [hm2]
                  rfl
                · exact ho m hm2
            · intro _
              exact getKey_delKey_self _ hnb
            · intro hcontra
              cases hcontra
      | none =>
          exact createStopMarker_inv env stopId stopName la lo lt selected text s h
            (fun _ => hBg) (fun _ => hSel)

theorem addStopMarkerFromList_inv (env : Env) (row : StopRow) (selected : Bool)
    (text : Option String) (s : St) (h : StInv s) :
    StInv (addStopMarkerFromList env row selected text s).1 :=
  addStopMarker_inv env row.stopId row.stopName row.stopLat row.stopLon
    row.locationType selected text s h

theorem cdsbLoop_inv (env : Env) (stops : List StopRow) :
    ∀ (s : St) (old : StrMap), StInv s → StInv (cdsbLoop env stops s old).1 := by
  induction stops with
  | nil => intro s old h; exact h
  | cons row rest ih =>
      intro s old h
      exact ih _ _ (addStopMarkerFromList_inv env row false none s h)

theorem callbackDisplayStopsBackground_inv (env : Env) (stops : List StopRow)
    (code : Nat) (s : St) (h : StInv s) :
    StInv (callbackDisplayStopsBackground env stops code s) := by
  unfold callbackDisplayStopsBackground
  by_cases hc : code ≠ 200
  · rw [if_pos hc]
    exact h
  · rw [if_neg hc]
    obtain ⟨hd, hns, hnb, ho, hp⟩ := cdsbLoop_inv env stops s s.stopMarkersBackground h
    refine ⟨?_, hns, ?_, ho, hp⟩
    · intro p hpMem
      rw [getKey_mapVals, hd p hpMem]
      rfl
    · rw [keysNoDup, keysOf_mapVals]
      exact hnb

theorem clearMap_inv (s : St) (h : StInv s) : StInv (clearMap s) := by
  obtain ⟨hd, hns, hnb, ho, hp⟩ := h
  refine ⟨?_, ?_, ?_, ?_, ?_⟩
  · intro p hpMem
    simp [clearMap] at hpMem
  · simp [clearMap, keysNoDup, keysOf]
  · simp [clearMap, keysNoDup, keysOf]
  · intro m hm
    simp only [clearMap, List.mem_append] at hm
    rcases hm with (hm | hm) | hm
    · rcases List.mem_map.1 hm with ⟨q, _, hq⟩
      rw [← hq]
      rfl
    · rcases List.mem_map.1 hm with ⟨q, _, hq⟩
      rw [← hq]
      rfl
    · exact ho m hm
  · intro q hq
    simp only [clearMap, List.mem_append] at hq
    rcases hq with hq | hq
    · rcases List.mem_map.1 hq with ⟨q2, _, hq2⟩
      rw [← hq2]
    · exact hp q hq

theorem applyOp_inv (env : Env) (s : St) (op : Op) (h : StInv s) :
    StInv (applyOp env s op) := by
  cases op with
  | add stopId stopName la lo lt sel text =>
      exact addStopMarker_inv env stopId stopName la lo lt sel text s h
  | addFromList row sel text => exact addStopMarkerFromList_inv env row sel text s h
  | displayBackground stops code =>
      exact callbackDisplayStopsBackground_inv env stops code s h
  | clear => exact clearMap_inv s h

theorem applyOps_inv (env : Env) (ops : List Op) :
    ∀ s : St, StInv s → StInv (applyOps env ops s) := by
  induction ops with
  | nil => intro s h; exact h
  | cons op rest ih =>
      intro s h
      exact ih _ (applyOp_inv env s op h)

theorem addStopMarker_background_only (env : Env) (stopId stopName : String)
    (la lo lt : Int) (s : St) :
    (addStopMarker env stopId stopName la lo lt false none s).1.stopMarkersSelected
        = s.stopMarkersSelected ∧
    (addStopMarker env stopId stopName la lo lt false none s).1.existingPolylines
        = s.existingPolylines := by
  unfold addStopMarker
  cases hSel : getKey s.stopMarkersSelected stopId with
  | some marker => simp [jsTruthyStr]
  | none =>
      cases hBg : getKey s.stopMarkersBackground stopId with
      | some mb => simp
      | none => simp [createStopMarker]

theorem cdsbLoop_background_only (env : Env) (stops : List StopRow) :
    ∀ (s : St) (old : StrMap),
      (cdsbLoop env stops s old).1.stopMarkersSelected = s.stopMarkersSelected ∧
      (cdsbLoop env stops s old).1.existingPolylines = s.existingPolylines := by
  induction stops with
  | nil => intro s old; exact ⟨rfl, rfl⟩
  | cons row rest ih =>
      intro s old
      unfold cdsbLoop
      obtain ⟨ih1, ih2⟩ := ih (addStopMarkerFromList env row false none s).1 _
      obtain ⟨hb1, hb2⟩ := addStopMarker_background_only env row.stopId row.stopName
        row.stopLat row.stopLon row.locationType s
      exact ⟨ih1.trans hb1, ih2.trans hb2⟩

theorem callbackDisplayStopsBackground_background_only (env : Env)
    (stops : List StopRow) (code : Nat) (s : St) :
    (callbackDisplayStopsBackground env stops code s).stopMarkersSelected
        = s.stopMarkersSelected ∧
    (callbackDisplayStopsBackground env stops code s).existingPolylines
        = s.existingPolylines := by
  unfold callbackDisplayStopsBackground
  by_cases hc : code ≠ 200
  · rw [if_pos hc]
    exact ⟨rfl, rfl⟩
  · rw [if_neg hc]
    exact cdsbLoop_background_only env stops s s.stopMarkersBackground

theorem displayedMarkers_clearMap (s : St) (h : StInv s) :
    displayedMarkers (clearMap s) = [] := by
  obtain ⟨hd, hns, hnb, ho, hp⟩ := h
  unfold displayedMarkers clearMap
  rw [List.filter_eq_nil_iff]
  intro m hm
  simp only [List.map_nil, List.nil_append, List.mem_append] at hm
  rcases hm with (hm | hm) | hm
  · obtain ⟨q, _, hq⟩ := List.mem_map.1 hm
    rw [← hq]
    simp [markerSetMapNull]
  · obtain ⟨q, _, hq⟩ := List.mem_map.1 hm
    rw [← hq]
    simp [markerSetMapNull]
  · simp [ho m hm]

theorem displayedPolylines_clearMap (s : St) (h : StInv s) :
    displayedPolylines (clearMap s) = [] := by
  obtain ⟨hd, hns, hnb, ho, hp⟩ := h
  unfold displayedPolylines clearMap
  rw [List.filter_eq_nil_iff]
  intro q hq
  simp only [List.nil_append, List.mem_append] at hq
  rcases hq with hq | hq
  · obtain ⟨q2, _, hq2⟩ := List.mem_map.1 hq
    rw [← hq2]
    simp
  · simp [hp q hq]

theorem data_append (a b : String) : (a ++ b).data = a.data ++ b.data := by
  cases a
  cases b
  rfl

theorem takeWhile_append_left {p : Char → Bool} (l1 l2 : List Char)
    (h : ∃ c ∈ l1, p c = false) :
    (l1 ++ l2).takeWhile p = l1.takeWhile p := by
  induction l1 with
  | nil => simp at h
  | cons a t ih =>
      obtain ⟨c, hc, hpc⟩ := h
      rcases List.mem_cons.1 hc with rfl | hc2
      · simp [List.takeWhile_cons, hpc]
      · by_cases hp : p a
        · simp only [List.cons_append, List.takeWhile_cons, hp, if_true]
          rw [ih ⟨c, hc2, hpc⟩]
        · simp [List.takeWhile_cons, hp]

theorem urlPath_append_left (a b : String) (h : ∃ c ∈ a.data, c = '?') :
    urlPath (a ++ b) = urlPath a := by
  unfold urlPath
  rw [data_append]
  apply congrArg
  apply takeWhile_append_left
  obtain ⟨c, hc, rfl⟩ := h
  exact ⟨'?', hc, by simp⟩

theorem callbackDisplayPatterns_clears (env : Env) (patterns : List PatternRow)
    (rid : String) (s : St) (h : StInv s) (hsr : s.selectedRoute = some rid)
    (hany : s.routeList.any (fun rv => rv.routeId = rid) = true) :
    ∃ r, callbackDisplayPatterns env patterns 200 s = .ok r ∧
      displayedMarkers r.1 = [] ∧ displayedPolylines r.1 = [] := by
  have hclear : StInv (clearMap s) := clearMap_inv s h
  unfold callbackDisplayPatterns
  rw [if_neg (by simp)]
  rw [hsr]
  simp only [hany, if_true]
  by_cases ht : patterns.any (fun p => !p.trips.isEmpty)
  · simp only [ht, if_true]
    refine ⟨_, rfl, ?_, ?_⟩
    · show displayedMarkers (clearMap _) = []
      apply displayedMarkers_clearMap
      exact hclear
    · show displayedPolylines (clearMap _) = []
      apply displayedPolylines_clearMap
      exact hclear
  · simp only [ht, if_false]
    refine ⟨_, rfl, ?_, ?_⟩
    · exact displayedMarkers_clearMap s h
    · exact displayedPolylines_clearMap s h

theorem jsPlus_num_str (a : Nat) (t : String) :
    jsPlus (.num a) (.str t) = .str (toString a ++ t) := rfl

theorem jsPlus_num_num (a b : Nat) : jsPlus (.num a) (.num b) = .num (a + b) := rfl

theorem jsPlus_str (t : String) (v : JsValue) :
    jsPlus (.str t) v = .str (t ++ jsValToString v) := by
  cases v <;> rfl

theorem maybeLen_ge_two : ∀ n : Nat, n < 32 → 1 ≤ n →
    2 ≤ (jsValToString (maybeAddLeadingZero n)).length := by decide

theorem maybeLen_eq_two : ∀ n : Nat, n < 32 → 1 ≤ n → n ≠ 10 →
    (jsValToString (maybeAddLeadingZero n)).length = 2 := by decide

theorem reprLen_pos : ∀ n : Nat, n < 11 → 1 ≤ (toString n).length := by decide

/-- C6: the client performs no cancellation, no retry and no timeout
handling: every `downloadUrl` call sends exactly one request, never sets a
timeout on the XMLHttpRequest, never aborts it, and the error handler only
logs to the console — it issues no new request. -/
theorem C6_no_cancel_retry_timeout (logFlag : Bool) (url : String) :
    ((downloadUrl logFlag url).filter (fun a => a = XhrAction.send)).length = 1 ∧
    XhrAction.abortReq ∉ downloadUrl logFlag url ∧
    (∀ ms : Nat, XhrAction.setTimeoutMs ms ∉ downloadUrl logFlag url) ∧
    (∀ status : Nat,
      xhrOnError status = [XhrAction.consoleError ("" ++ toString status)] ∧
      XhrAction.send ∉ xhrOnError status ∧
      (∀ (method u : String) (async : Bool),
        XhrAction.openRequest method u async ∉ xhrOnError status)) := by
  refine ⟨?_, ?_, ?_, ?_⟩
  · cases logFlag <;> simp [downloadUrl]
  · cases logFlag <;> simp [downloadUrl]
  · intro ms
    cases logFlag <;> simp [downloadUrl]
  · intro status
    refine ⟨rfl, by simp [xhrOnError], ?_⟩
    intro method u async
    simp [xhrOnError]

/-- C10: every LabeledMarker is constructed clickable — the expression
`opt_opts.clickable || true` yields `true` even for `clickable === false` —
so `initialize` always installs all six label pass-through listeners; and
the constructor overwrites a truthy `opt_opts.draggable` with `false`, so
the options never carry `draggable === true` into the marker and no
LabeledMarker is ever draggable. -/
theorem C10_labeledmarker_clickable (latlng : Int × Int) (opt_opts : GMarkerOptions) :
    (LabeledMarker.construct latlng opt_opts).clickable_ = true ∧
    LabeledMarker.initListeners (LabeledMarker.construct latlng opt_opts) = eventPassthrus ∧
    (LabeledMarker.construct latlng opt_opts).opts.draggable =
      (if opt_opts.draggable = some true then some false else opt_opts.draggable) ∧
    jsTruthyBool (LabeledMarker.construct latlng opt_opts).opts.draggable = false := by
  have hc : jsOrBool opt_opts.clickable true = true := by
    cases h : opt_opts.clickable with
    | none => rfl
    | some b => cases b <;> rfl
  refine ⟨?_, ?_, ?_, ?_⟩
  · simpa [LabeledMarker.construct] using hc
  · simp [LabeledMarker.initListeners, LabeledMarker.construct, hc]
  · cases hd : opt_opts.draggable with
    | none => simp [LabeledMarker.construct, jsTruthyBool, hd]
    | some b => cases b <;> simp [LabeledMarker.construct, jsTruthyBool, hd]
  · cases hd : opt_opts.draggable with
    | none => simp [LabeledMarker.construct, jsTruthyBool, hd]
    | some b => cases b <;> simp [LabeledMarker.construct, jsTruthyBool, hd]

/-- C9 (amended): within 1..31, `maybeAddLeadingZero` renders as a
two-character string exactly when the input differs from 10, and renders 10
as the three-character "010"; but because inputs over 10 are returned as
numbers, `y + maybeAddLeadingZero(m)` is numeric addition for months over
10, so the date string exceeds eight characters when the month is 10, or
when the day is 10 and the month is at most 10 — while for months 11 and 12
with day 10 the result has only seven characters. -/
theorem C9_maybeAddLeadingZero_amended :
    (∀ n : Nat, n < 32 → 1 ≤ n → n ≠ 10 →
        (jsValToString (maybeAddLeadingZero n)).length = 2)
  ∧ jsValToString (maybeAddLeadingZero 10) = "010"
  ∧ (∀ y m d : Nat, (toString y).length = 4 → d < 32 → 1 ≤ d → 1 ≤ m →
      (m = 10 ∨ (d = 10 ∧ m ≤ 10)) → 8 < (setStartDateValue y m d).length)
  ∧ (∀ y m d : Nat, (toString (y + m)).length = 4 → 10 < m → d = 10 →
      (setStartDateValue y m d).length = 7) := by
  refine ⟨maybeLen_eq_two, rfl, ?_, ?_⟩
  · intro y m d hy hd1 hd2 hm1 hcase
    have hten : maybeAddLeadingZero 10 = JsValue.str "010" := rfl
    rcases hcase with rfl | ⟨rfl, hm10⟩
    · have h2 := maybeLen_ge_two d hd1 hd2
      unfold setStartDateValue
      rw [hten, jsPlus_num_str, jsPlus_str]
      show 8 < ((toString y ++ "010") ++ jsValToString (maybeAddLeadingZero d)).length
      rw [String.length_append, String.length_append, hy]
      have h010 : ("010" : String).length = 3 := rfl
      omega
    · by_cases h10 : m = 10
      · subst h10
        unfold setStartDateValue
        rw [hten, jsPlus_num_str, jsPlus_str]
        show 8 < ((toString y ++ "010") ++ jsValToString (maybeAddLeadingZero 10)).length
        rw [String.length_append, String.length_append, hy]
        have h010 : ("010" : String).length = 3 := rfl
        have h010b : (jsValToString (maybeAddLeadingZero 10)).length = 3 := rfl
        omega
      · have hmlt : ¬ m > 10 := by omega
        have hm : maybeAddLeadingZero m = JsValue.str ("0" ++ toString m) := by
          unfold maybeAddLeadingZero
          rw [if_neg hmlt]
        have hlen := reprLen_pos m (by omega)
        unfold setStartDateValue
        rw [hm, hten, jsPlus_num_str, jsPlus_str]
        show 8 < ((toString y ++ ("0" ++ toString m)) ++ jsValToString (JsValue.str "010")).length
        rw [String.length_append, String.length_append, String.length_append, hy]
        have h010 : (jsValToString (JsValue.str "010")).length = 3 := rfl
        have h0 : ("0" : String).length = 1 := rfl
        omega
  · intro y m d hy hm hd
    subst hd
    have hmv : maybeAddLeadingZero m = JsValue.num m := by
      unfold maybeAddLeadingZero
      rw [if_pos hm]
    have hten : maybeAddLeadingZero 10 = JsValue.str "010" := rfl
    unfold setStartDateValue
    rw [hmv, hten, jsPlus_num_num, jsPlus_num_str]
    show ((toString (y + m) ++ "010")).length = 7
    rw [String.length_append, hy]
    rfl

/-- C9 witness: concrete instances — month 5 renders in two characters;
`setStartDate(2024, 10, 25)` exceeds eight characters; and
`setStartDate(2024, 11, 10)` has exactly seven. -/
theorem C9_maybeAddLeadingZero_witness :
    (jsValToString (maybeAddLeadingZero 5)).length = 2 ∧
    8 < (setStartDateValue 2024 10 25).length ∧
    (setStartDateValue 2024 11 10).length = 7 :=
  ⟨C9_maybeAddLeadingZero_amended.1 5 (by decide) (by decide) (by decide),
   C9_maybeAddLeadingZero_amended.2.2.1 2024 10 25 (by decide) (by decide)
     (by decide) (by decide) (Or.inl rfl),
   C9_maybeAddLeadingZero_amended.2.2.2 2024 11 10 (by decide) (by decide) rfl⟩

/-- C9 counterexample: for month 11 and day 10 the year and month are added
numerically (`2024 + 11 = 2035`) and the result "2035010" has seven
characters, refuting "longer than eight characters whenever the month or
the day equals 10". -/
theorem C9_maybeAddLeadingZero_counterexample :
    setStartDateValue 2024 11 10 = "2035010" ∧
    ¬ 8 < (setStartDateValue 2024 11 10).length := by decide

theorem mem_data_append_left {c : Char} {a : String} (b : String)
    (h : c ∈ a.data) : c ∈ (a ++ b).data := by
  rw [data_append]
  exact List.mem_append_left _ h

theorem urlPath_append_left_of_mem {a : String} (b : String)
    (h : ('?' : Char) ∈ a.data) : urlPath (a ++ b) = urlPath a :=
  urlPath_append_left a b ⟨'?', h, rfl⟩

/-- C3 (amended): every request the client issues through `downloadUrl` is
an asynchronous GET whose path is one of exactly ten endpoints — the nine
the specification lists plus `/json/stoptrips`, fetched by
`fetchStopInfoWindow` (the `/ttablegraph` URL is embedded as an SVG object
in the bottombar markup, not fetched through `downloadUrl`). -/
theorem C3_endpoints_amended (c : FetchCall) (logFlag : Bool) :
    urlPath (requestUrl c) ∈ clientEndpoints ∧
    XhrAction.openRequest "GET" (requestUrl c) true ∈
      downloadUrl logFlag (requestUrl c) := by
  constructor
  · cases c <;>
      simp only [requestUrl] <;>
      (repeat rw [urlPath_append_left_of_mem _
        (by (repeat apply mem_data_append_left); decide)]) <;>
      decide
  · cases logFlag <;> simp [downloadUrl]

/-- C3 counterexample: the URL `fetchStopInfoWindow` builds has path
`/json/stoptrips`, which is not among the nine endpoints the claim
enumerates. -/
theorem C3_endpoints_counterexample :
    urlPath (requestUrl (FetchCall.stopTrips "s1" "0" "")) = "/json/stoptrips" ∧
    "/json/stoptrips" ∉ specNineEndpoints := by decide

/-- C1 (amended): on a non-200 response, the display callbacks that check
the code (`callbackDisplayStops`, `callbackDisplayStopsBackground`, the
info-window callback, `callbackDisplayPatterns`,
`callbackDisplayTripStopTimes`, `callbackDisplayTripPolyLine`,
`callbackDisplayTripRows`) return with the state untouched, no error
surfaced and no request issued; but `callbackDisplayRoutes` raises a
ReferenceError instead of returning (its non-200 branch reads unbound
variables), and the anonymous callbacks of `changeStopLocation` and
`saveData` never check the code: they write the response text into the
`edit_status` element even on error responses. -/
theorem C1_non200_abort_amended (env : Env) (cb : Callback) (code : Nat)
    (s : St) (h : code ≠ 200) :
    runCallback env cb code s = abortBehavior cb s := by
  cases cb <;>
    simp [runCallback, abortBehavior, callbackDisplayStops,
      callbackDisplayStopsBackground, callbackDisplayStopInfoWindow,
      callbackDisplayRoutes, callbackDisplayPatterns,
      callbackDisplayTripStopTimes, callbackDisplayTripPolyLine,
      callbackDisplayTripRows, Except.map, h]

/-- C1 witness: a 500 response to the stop search leaves the state exactly
as the non-200 discipline describes. -/
theorem C1_non200_abort_witness :
    runCallback defaultEnv (Callback.displayStops []) 500 initSt =
      abortBehavior (Callback.displayStops []) initSt :=
  C1_non200_abort_amended defaultEnv (Callback.displayStops []) 500 initSt (by decide)

/-- C1 counterexample: the `saveData` callback receives a 500 response and
still writes the response body into the `edit_status` element — DOM state
is modified and the error text is surfaced, refuting the claim that every
callback silently aborts on non-200. -/
theorem C1_non200_abort_counterexample :
    (runCallback defaultEnv (Callback.saveDataEdit "Internal Server Error") 500
        initSt).map (fun p => p.1.editStatus) = .ok "Internal Server Error" ∧
    initSt.editStatus ≠ "Internal Server Error" := by decide

/-- C5 (amended): the stop search, the map move, a successful route
selection, a successful marker click and a marker drag end each issue
exactly one GET through `downloadUrl` (route selection and marker click
issue none at all when `parseTimeInput` raises); but a trip selection —
also when reached through the trip text search — issues exactly three:
the stop times, the shape and the rows of the trip. -/
theorem C5_requests_amended :
    (∀ s : St, (stopTextSearchSubmit s).2.length = 1)
  ∧ (∀ (n e s2 w : Int) (st : St), (callbackMoveEnd n e s2 w st).2.length = 1)
  ∧ (∀ (routeId : String) (s : St) (r : St × List FetchCall),
      selectRoute routeId s = .ok r → r.2.length = 1)
  ∧ (∀ (marker : Marker) (s : St) (r : St × List FetchCall),
      markerClick marker s = .ok r → r.2.length = 1)
  ∧ (∀ (marker : Marker) (s : St), (markerDragEnd marker s).2.length = 1)
  ∧ (∀ (tripId : String) (s : St), (selectTrip tripId s).2.length = 3)
  ∧ (∀ s : St, (tripTextSearchSubmit s).2.length = 3) := by
  refine ⟨fun s => rfl, fun n e s2 w st => rfl, ?_, ?_, fun m s => rfl,
    fun t s => rfl, fun s => rfl⟩
  · intro routeId s r h
    unfold selectRoute fetchPatterns at h
    dsimp only [] at h
    split at h
    · split at h
      · exact absurd h (by simp)
      · injection h with h2
        subst h2
        rfl
    · exact absurd h (by simp)
  · intro marker s r h
    unfold markerClick fetchStopInfoWindow at h
    split at h
    · exact absurd h (by simp)
    · injection h with h2
      subst h2
      rfl

/-- C5 witness: a successful route selection and a successful marker click
each issued a single GET. -/
theorem C5_requests_witness :
    selectRouteResult.2.length = 1 ∧ markerClickResult.2.length = 1 :=
  ⟨C5_requests_amended.2.2.1 "r1" stOneRoute selectRouteResult (by decide),
   C5_requests_amended.2.2.2.1 clickMarker initSt markerClickResult (by decide)⟩

/-- C5 counterexample: the trip-selection handler issues three GET
requests, not a single one. -/
theorem C5_requests_counterexample :
    (selectTrip "t1" initSt).2.length = 3 ∧
    (selectTrip "t1" initSt).2.length ≠ 1 := by decide

/-- C7: no ordering guarantee between overlapping requests — when the
earlier (slow) stop search's callback runs after the later (fast) one's,
it overwrites the marker map wholesale: the final state shows the earlier
request's stops and has lost the later request's, exactly inverted from
the in-order completion; nothing in the state distinguishes the two
arrivals. -/
theorem C7_overlapping_callbacks_race (env : Env) (s : St) :
    ∃ sSwapped,
      completeInOrder env
        [Callback.displayStops raceLaterData, Callback.displayStops raceEarlierData]
        200 s = .ok sSwapped ∧
      getKey sSwapped.stopMarkersSelected "stopLaterA" = none ∧
      (getKey sSwapped.stopMarkersSelected "stopEarlierA").isSome = true ∧
      ∃ sOrdered,
        completeInOrder env
          [Callback.displayStops raceEarlierData, Callback.displayStops raceLaterData]
          200 s = .ok sOrdered ∧
        (getKey sOrdered.stopMarkersSelected "stopLaterA").isSome = true ∧
        getKey sOrdered.stopMarkersSelected "stopEarlierA" = none := by
  exact ⟨_, rfl, rfl, rfl, _, rfl, rfl, rfl⟩

/-- C2: at most one marker per stop id is displayed at a time — under every
sequence of the marker operations from the freshly loaded state, no stop id
is simultaneously a key of both `stopMarkersSelected` and
`stopMarkersBackground`, and each object keys at most one marker per stop
id; moreover, when a background stop becomes selected, `addStopMarker`
deletes its key from the background object and records the background
marker taken off the map (`setMap(null)`) before the new selected marker is
recorded under the stop id. -/
theorem C2_marker_uniqueness :
    (∀ (env : Env) (ops : List Op),
      markersDisjoint (applyOps env ops initSt) ∧
      keysNoDup (applyOps env ops initSt).stopMarkersSelected ∧
      keysNoDup (applyOps env ops initSt).stopMarkersBackground)
  ∧ (∀ (env : Env) (stopId stopName : String) (la lo lt : Int)
       (text : Option String) (s : St) (mb : Marker),
      StInv s →
      getKey s.stopMarkersSelected stopId = none →
      getKey s.stopMarkersBackground stopId = some mb →
      getKey (addStopMarker env stopId stopName la lo lt true text s).1.stopMarkersBackground
          stopId = none ∧
      markerSetMapNull mb ∈ (addStopMarker env stopId stopName la lo lt true text s).1.orphans ∧
      (getKey (addStopMarker env stopId stopName la lo lt true text s).1.stopMarkersSelected
          stopId).isSome = true) := by
  constructor
  · intro env ops
    obtain ⟨hd, hns, hnb, _, _⟩ := applyOps_inv env ops initSt (by decide)
    exact ⟨hd, hns, hnb⟩
  · intro env stopId stopName la lo lt text s mb hInv hSel hBg
    obtain ⟨hd, hns, hnb, ho, hp⟩ := hInv
    unfold addStopMarker
    simp only [hSel, hBg, if_true, createStopMarker]
    refine ⟨?_, ?_, ?_⟩
    · exact getKey_delKey_self _ hnb
    · exact List.mem_cons_self _ _
    · rw [getKey_setKey_self]
      rfl

/-- C2 witness: a concrete run — after clearing the map the objects are
disjoint and duplicate-free, and selecting the background stop "bg1"
removes it from the background object, records its marker off the map, and
keys the new selected marker. -/
theorem C2_marker_uniqueness_witness :
    (markersDisjoint (applyOps defaultEnv [Op.clear] initSt) ∧
      keysNoDup (applyOps defaultEnv [Op.clear] initSt).stopMarkersSelected ∧
      keysNoDup (applyOps defaultEnv [Op.clear] initSt).stopMarkersBackground) ∧
    (getKey (addStopMarker defaultEnv "bg1" "Background stop" 3 4 0 true none
        stOneBackground).1.stopMarkersBackground "bg1" = none ∧
      markerSetMapNull bgMarker ∈ (addStopMarker defaultEnv "bg1" "Background stop"
        3 4 0 true none stOneBackground).1.orphans ∧
      (getKey (addStopMarker defaultEnv "bg1" "Background stop" 3 4 0 true none
        stOneBackground).1.stopMarkersSelected "bg1").isSome = true) :=
  ⟨C2_marker_uniqueness.1 defaultEnv [Op.clear],
   C2_marker_uniqueness.2 defaultEnv "bg1" "Background stop" 3 4 0 none
     stOneBackground bgMarker (by decide) (by decide) (by decide)⟩

/-- C4 (amended): entity destruction is tied to `clearMap`, not to every
map interaction — `clearMap` takes every marker and polyline ever created
off the map; `callbackZoomEnd` does nothing at all; the pan completion
(`callbackDisplayStopsBackground`) leaves selected markers and polylines
untouched, removing only stale background markers; `selectTrip` clears the
map synchronously; and a route selection clears it only when its patterns
response arrives (`callbackDisplayPatterns` on a 200 response with the
selected route still present). -/
theorem C4_lifecycle_amended :
    (∀ s : St, StInv s →
      displayedMarkers (clearMap s) = [] ∧ displayedPolylines (clearMap s) = [])
  ∧ (∀ s : St, callbackZoomEnd s = s)
  ∧ (∀ (env : Env) (stops : List StopRow) (code : Nat) (s : St),
      (callbackDisplayStopsBackground env stops code s).stopMarkersSelected
          = s.stopMarkersSelected ∧
      (callbackDisplayStopsBackground env stops code s).existingPolylines
          = s.existingPolylines)
  ∧ (∀ (tripId : String) (s : St),
      (selectTrip tripId s).1.stopMarkersSelected = [] ∧
      (selectTrip tripId s).1.stopMarkersBackground = [] ∧
      (selectTrip tripId s).1.existingPolylines = [])
  ∧ (∀ (env : Env) (patterns : List PatternRow) (rid : String) (s : St),
      StInv s → s.selectedRoute = some rid →
      s.routeList.any (fun rv => rv.routeId = rid) = true →
      ∃ r, callbackDisplayPatterns env patterns 200 s = .ok r ∧
        displayedMarkers r.1 = [] ∧ displayedPolylines r.1 = []) := by
  refine ⟨?_, fun s => rfl, ?_, ?_, ?_⟩
  · intro s h
    exact ⟨displayedMarkers_clearMap s h, displayedPolylines_clearMap s h⟩
  · intro env stops code s
    exact callbackDisplayStopsBackground_background_only env stops code s
  · intro tripId s
    exact ⟨rfl, rfl, rfl⟩
  · intro env patterns rid s h hsr hany
    exact callbackDisplayPatterns_clears env patterns rid s h hsr hany

/-- C4 witness: clearing the freshly loaded state leaves nothing displayed,
and the patterns response for the selected route "r1" clears the map. -/
theorem C4_lifecycle_witness :
    (displayedMarkers (clearMap initSt) = [] ∧
      displayedPolylines (clearMap initSt) = []) ∧
    (∃ r, callbackDisplayPatterns defaultEnv [] 200 stRouteSelected = .ok r ∧
      displayedMarkers r.1 = [] ∧ displayedPolylines r.1 = []) :=
  ⟨C4_lifecycle_amended.1 initSt (by decide),
   C4_lifecycle_amended.2.2.2.2 defaultEnv [] "r1" stRouteSelected (by decide)
     (by decide) (by decide)⟩

/-- C4 counterexample: a polyline created before a map move is still
displayed after the move's fetch completes — the pan destroys neither
polylines nor selected markers, refuting "no entity created before that
event remains displayed". -/
theorem C4_lifecycle_counterexample :
    (runCallback defaultEnv (Callback.displayStopsBackground []) 200
        (displayPolyLine cxPolyData initSt)).map
      (fun p => (displayedPolylines p.1).length) = .ok 1 := by decide

theorem data_mk (l : List Char) : (String.mk l).data = l := rfl

/-- C8 (amended): for every HH:MM:SS time input (two-digit fields, hours up
to 29), the regex matches at the start with the seconds group present, and
`parseTimeInput` then raises a ReferenceError — the seconds accumulation
targets the undeclared variable `second` — instead of returning; for an
HH:MM input it returns HH*3600 + MM*60 with no seconds contribution; and
for a string the regex does not match it returns the empty string. -/
theorem C8_parseTimeInput_amended :
    (∀ h1 h2 m1 m2 s1 s2 : Char,
      isD012 h1 = true → isDigitCh h2 = true → isD05 m1 = true →
      isDigitCh m2 = true → isD05 s1 = true → isDigitCh s2 = true →
      parseTimeInputText (String.mk [h1, h2, ':', m1, m2, ':', s1, s2]) =
        .error .referenceError)
  ∧ (∀ h1 h2 m1 m2 : Char,
      isD012 h1 = true → isDigitCh h2 = true → isD05 m1 = true →
      isDigitCh m2 = true →
      parseTimeInputText (String.mk [h1, h2, ':', m1, m2]) =
        .ok (.num (parseIntDec [h1, h2] * 3600 + parseIntDec [m1, m2] * 60)))
  ∧ (∀ text : String, timeSearch text.data = none →
      parseTimeInputText text = .ok (.str "")) := by
  refine ⟨?_, ?_, ?_⟩
  · intro h1 h2 m1 m2 s1 s2 hh1 hh2 hm1 hm2 hs1 hs2
    have htm : timeMatchAt [h1, h2, ':', m1, m2, ':', s1, s2] 0 =
        some { g1 := [h1, h2], g2 := [m1, m2], g4 := some [s1, s2] } := by
      unfold timeMatchAt optClassDigit
      simp [hh1, hh2, hm1, hm2, hs1, hs2]
    unfold parseTimeInputText timeSearch
    rw [data_mk]
    simp only [List.length_cons, List.length_nil]
    rw [List.range_succ_eq_map]
    simp only [List.findSome?_cons, htm]
  · intro h1 h2 m1 m2 hh1 hh2 hm1 hm2
    have htm : timeMatchAt [h1, h2, ':', m1, m2] 0 =
        some { g1 := [h1, h2], g2 := [m1, m2], g4 := none } := by
      unfold timeMatchAt optClassDigit
      simp [hh1, hh2, hm1, hm2]
    unfold parseTimeInputText timeSearch
    rw [data_mk]
    simp only [List.length_cons, List.length_nil]
    rw [List.range_succ_eq_map]
    simp only [List.findSome?_cons, htm]
  · intro text h
    unfold parseTimeInputText
    rw [h]

/-- C8 witness: the concrete inputs "12:34:56" (raises) and "12:34"
(returns 45240 seconds). -/
theorem C8_parseTimeInput_witness :
    parseTimeInputText (String.mk ['1', '2', ':', '3', '4', ':', '5', '6']) =
      .error .referenceError ∧
    parseTimeInputText (String.mk ['1', '2', ':', '3', '4']) =
      .ok (.num (parseIntDec ['1', '2'] * 3600 + parseIntDec ['3', '4'] * 60)) :=
  ⟨C8_parseTimeInput_amended.1 '1' '2' '3' '4' '5' '6' (by decide) (by decide)
     (by decide) (by decide) (by decide) (by decide),
   C8_parseTimeInput_amended.2.1 '1' '2' '3' '4' (by decide) (by decide)
     (by decide) (by decide)⟩

/-- C8 counterexample: on "12:34:56" the function does not return
12*3600 + 34*60 while ignoring the seconds — it raises a ReferenceError. -/
theorem C8_parseTimeInput_counterexample :
    parseTimeInputText "12:34:56" ≠ .ok (.num (12 * 3600 + 34 * 60)) ∧
    parseTimeInputText "12:34:56" = .error .referenceError := by decide
